import Mathlib

/-!
# Verification of the Brick playback backend (src/Brick/src-tauri/src/lib.rs)

Shallow embedding of the Rust playback session, metadata extractor,
cover-art cache and sidecar-text reader, with theorems settling the
frozen specification claims.

Modelling conventions:
* `f32` volume levels and positions are modelled as rationals `ℚ`
  (IEEE NaN/rounding behaviour is out of scope of the embedding);
  Rust `level.clamp(0.0, 1.0)` on ordinary values is `min (max v 0) 1`.
* Fallible external calls (`File::open`, `Decoder::new`, `Sink::try_new`,
  `Mutex::lock`) are driven by an explicit environment record saying
  which of them succeed for the call at hand.
* A rodio `Sink` is modelled by its observable fields: an allocation
  identifier (fresh per `Sink::try_new`), its gain (rodio default `1.0`),
  paused/stopped flags and its queue of appended sources.
* A decoded source (`Decoder::new` possibly followed by `skip_duration`)
  is modelled by the file path it reads from the start and the skipped
  leading duration in seconds.
-/

/-- A decoded audio source: `Decoder::new` opens `path` from the start and
`skip_duration` discards the first `skipSeconds` seconds of decoded audio. -/
structure SourceSpec where
  path : String
  skipSeconds : ℚ
deriving DecidableEq

/-- Observable state of a rodio `Sink`.  `Sink::try_new` yields a fresh sink
with gain `1`, not paused, not stopped, with an empty queue. -/
structure Sink where
  id : ℕ
  gain : ℚ
  paused : Bool
  stopped : Bool
  queue : List SourceSpec
deriving DecidableEq

/-- `Sink::try_new(&stream_handle)`: fresh sink at rodio's default volume 1. -/
def Sink.fresh (id : ℕ) : Sink :=
  ⟨id, 1, false, false, []⟩

/-- `sink.set_volume(v)`. -/
def Sink.setVolume (s : Sink) (v : ℚ) : Sink :=
  { s with gain := v }

/-- `sink.append(source)`. -/
def Sink.append (s : Sink) (src : SourceSpec) : Sink :=
  { s with queue := s.queue ++ [src] }

/-- `sink.pause()`. -/
def Sink.pauseSink (s : Sink) : Sink :=
  { s with paused := true }

/-- `sink.play()`. -/
def Sink.playSink (s : Sink) : Sink :=
  { s with paused := false }

/-- `sink.stop()`: stops the sink, emptying its queue. -/
def Sink.stopSink (s : Sink) : Sink :=
  { s with stopped := true, queue := [] }

/-- The shared `AudioState` record of `lib.rs` (the `stream_handle` is
immutable and is represented by the environment's sink-creation outcome);
`nextId` is the bookkeeping counter handing out fresh sink identifiers. -/
structure AudioState where
  sink : Sink
  current_file : Option String
  volume : ℚ
  nextId : ℕ
deriving DecidableEq

/-- The `AudioEventPayload` struct emitted on `native-audio://state`. -/
structure AudioEventPayload where
  status : String
  file_path : Option String
  position : Option ℚ
  volume : Option ℚ
deriving DecidableEq

/-- Outcomes of the fallible external calls made during one session
operation: mutex acquisition, `File::open` per path, `Decoder::new` per
path, and `Sink::try_new`. -/
structure Env where
  lockOk : Bool
  openOk : String → Bool
  decodeOk : String → Bool
  sinkOk : Bool

/-- Result of one session operation: the post-call shared state (mutations
made before an early `return Err` persist, since the record lives in the
mutex), the emitted event if the operation succeeded, the sinks discarded
by a successful replacement (with their final, stopped, state), and the
error message if it failed. -/
structure StepResult where
  state : AudioState
  event : Option AudioEventPayload
  discarded : List Sink
  error : Option String
deriving DecidableEq

/-- Rust `level.clamp(0.0, 1.0)` on ordinary (non-NaN) values. -/
def volClamp (v : ℚ) : ℚ :=
  min (max v 0) 1

/-- `play_song`: open and decode `file_path`, build a sink at the stored
volume with the decoded source queued, then stop and replace the old sink
and record the new current file; emit `playing` at position `0`.  All
fallible steps precede every mutation. -/
def play_song (env : Env) (st : AudioState) (file_path : String) : StepResult :=
  if ¬ env.lockOk then ⟨st, none, [], some "Mutex lock error"⟩
  else if ¬ env.openOk file_path then ⟨st, none, [], some "File opening error"⟩
  else if ¬ env.decodeOk file_path then ⟨st, none, [], some "Decoder error"⟩
  else if ¬ env.sinkOk then ⟨st, none, [], some "Sink creation error"⟩
  else
    let decoder : SourceSpec := ⟨file_path, 0⟩
    let new_sink := ((Sink.fresh st.nextId).setVolume st.volume).append decoder
    ⟨{ st with sink := new_sink, current_file := some file_path, nextId := st.nextId + 1 },
      some ⟨"playing", some file_path, some 0, some st.volume⟩,
      [st.sink.stopSink], none⟩

/-- `pause_song`: pause the active sink in place; emit `paused` with the
current file and the stored volume, no position. -/
def pause_song (env : Env) (st : AudioState) : StepResult :=
  if ¬ env.lockOk then ⟨st, none, [], some "Mutex lock error"⟩
  else
    ⟨{ st with sink := st.sink.pauseSink },
      some ⟨"paused", st.current_file, none, some st.volume⟩, [], none⟩

/-- `resume_song`: resume the active sink in place; emit `playing` with the
current file and the stored volume, no position. -/
def resume_song (env : Env) (st : AudioState) : StepResult :=
  if ¬ env.lockOk then ⟨st, none, [], some "Mutex lock error"⟩
  else
    ⟨{ st with sink := st.sink.playSink },
      some ⟨"playing", st.current_file, none, some st.volume⟩, [], none⟩

/-- `stop_song`: stop the active sink FIRST, then attempt to create the
replacement sink; on sink-creation failure the already-stopped old sink
remains installed and `current_file` is not cleared.  The replacement sink
is created by `Sink::try_new` and its volume is never set (it keeps rodio's
default gain `1`).  Emit `stopped` on success. -/
def stop_song (env : Env) (st : AudioState) : StepResult :=
  if ¬ env.lockOk then ⟨st, none, [], some "Mutex lock error"⟩
  else
    let stStopped := { st with sink := st.sink.stopSink }
    if ¬ env.sinkOk then ⟨stStopped, none, [], some "Sink creation error"⟩
    else
      ⟨{ stStopped with
          sink := Sink.fresh st.nextId
          current_file := none
          nextId := st.nextId + 1 },
        some ⟨"stopped", none, none, some st.volume⟩,
        [st.sink.stopSink], none⟩

/-- `set_volume`: clamp the level to `[0, 1]`, store it, apply it to the
active sink in place; emit `volume` with the clamped level. -/
def set_volume (env : Env) (st : AudioState) (level : ℚ) : StepResult :=
  let clamped := volClamp level
  if ¬ env.lockOk then ⟨st, none, [], some "Mutex lock error"⟩
  else
    ⟨{ st with volume := clamped, sink := st.sink.setVolume clamped },
      some ⟨"volume", st.current_file, none, some clamped⟩, [], none⟩

/-- `seek_to`: requires a current file; reopen its decoder from the start,
skip the first `max(position_seconds, 0)` seconds, build a new sink at the
stored volume, stop and replace the old sink, leave `current_file`
untouched; emit `seeking` with the clamped position and stored volume. -/
def seek_to (env : Env) (st : AudioState) (position_seconds : ℚ) : StepResult :=
  if ¬ env.lockOk then ⟨st, none, [], some "Mutex lock error"⟩
  else
    match st.current_file with
    | none => ⟨st, none, [], some "No track loaded"⟩
    | some file_path =>
      if ¬ env.openOk file_path then ⟨st, none, [], some "File opening error"⟩
      else if ¬ env.decodeOk file_path then ⟨st, none, [], some "Decoder error"⟩
      else if ¬ env.sinkOk then ⟨st, none, [], some "Sink creation error"⟩
      else
        let skipped : SourceSpec := ⟨file_path, max position_seconds 0⟩
        let new_sink := ((Sink.fresh st.nextId).setVolume st.volume).append skipped
        ⟨{ st with sink := new_sink, nextId := st.nextId + 1 },
          some ⟨"seeking", some file_path, some (max position_seconds 0), some st.volume⟩,
          [st.sink.stopSink], none⟩

/-- The six session operations exposed by the backend. -/
inductive Op where
  | load (path : String)
  | pause
  | resume
  | stop
  | setVolume (level : ℚ)
  | seekTo (seconds : ℚ)
deriving DecidableEq

/-- Dispatch one session operation. -/
def step (env : Env) (st : AudioState) : Op → StepResult
  | .load p => play_song env st p
  | .pause => pause_song env st
  | .resume => resume_song env st
  | .stop => stop_song env st
  | .setVolume v => set_volume env st v
  | .seekTo s => seek_to env st s

/-- The state built in `run()`: a fresh empty sink, no current file,
volume `1.0`. -/
def initState : AudioState :=
  ⟨Sink.fresh 0, none, 1, 1⟩

/-- Run a sequence of session operations, each under its own environment,
threading the shared state. -/
def runOps (st : AudioState) : List (Env × Op) → AudioState
  | [] => st
  | (env, op) :: rest => runOps (step env st op).state rest

/-! ## Metadata extraction (`scan_music_file`) -/

/-- A lofty tag block as read through the `Accessor` interface, together
with its list of embedded pictures (each a byte blob). -/
structure Tag where
  title : Option String
  artist : Option String
  album : Option String
  pictures : List (List ℕ)
deriving DecidableEq

/-- Stream properties of the probed file; `duration` is read from here,
never from a tag. -/
structure FileProperties where
  durationSecs : ℕ
deriving DecidableEq

/-- The probed `TaggedFile`: stream properties, the optional primary tag,
and the list of all tag blocks in order. -/
structure TaggedFile where
  properties : FileProperties
  primary_tag : Option Tag
  tags : List Tag
deriving DecidableEq

/-- `tagged_file.first_tag()`: the first tag block, if any. -/
def TaggedFile.first_tag (tf : TaggedFile) : Option Tag :=
  tf.tags.head?

/-- The `SongMetadata` record returned to the caller. -/
structure SongMetadata where
  title : Option String
  artist : Option String
  album : Option String
  duration : ℕ
  file_path : String
  cover_art_path : Option String
deriving DecidableEq

/-- Environment for one `scan_music_file` call: whether `File::open`,
`Probe::guess_file_type` and `read` succeed for a path, and the probed
content when they do. -/
structure ScanEnv where
  openOk : String → Bool
  probeOk : String → Bool
  readOk : String → Bool
  content : String → TaggedFile

/-- `scan_music_file`: open and probe the file, read `duration` from the
stream properties, then read title/artist/album from the primary tag —
falling back to the first tag block — and forward the first embedded
picture to the cover cache (`cache` abstracts `cache_cover_jpg`).  With no
tag block all optional fields stay `none`. -/
def scan_music_file (env : ScanEnv) (cache : List ℕ → Option String)
    (file_path : String) : Except String SongMetadata :=
  if ¬ env.openOk file_path then .error "File opening error"
  else if ¬ env.probeOk file_path then .error "Probe error"
  else if ¬ env.readOk file_path then .error "Tag read error"
  else
    let tagged_file := env.content file_path
    let duration := tagged_file.properties.durationSecs
    match tagged_file.primary_tag with
    | some tag =>
      let cover_art_path :=
        match tag.pictures.head? with
        | some picture => cache picture
        | none => none
      .ok ⟨tag.title, tag.artist, tag.album, duration, file_path, cover_art_path⟩
    | none =>
      match tagged_file.first_tag with
      | some tag =>
        let cover_art_path :=
          match tag.pictures.head? with
          | some picture => cache picture
          | none => none
        .ok ⟨tag.title, tag.artist, tag.album, duration, file_path, cover_art_path⟩
      | none => .ok ⟨none, none, none, duration, file_path, none⟩

/-! ## Cover-art cache (`cache_cover_jpg`) -/

/-- Environment for one `cache_cover_jpg` call: the application data
directory (if resolvable), and the outcomes of `create_dir_all`,
`image::load_from_memory`, `File::create` and JPEG encoding. -/
structure CacheEnv where
  app_data_dir : Option String
  createDirOk : Bool
  loadOk : List ℕ → Bool
  createFileOk : Bool
  encodeOk : Bool

/-- The on-disk cache contents: the set of existing file paths. -/
structure CacheFs where
  files : List String
deriving DecidableEq

/-- Result of one `cache_cover_jpg` call: the returned optional path, the
file system afterwards, and whether the decode/resize/encode work was
reached (i.e. the call did not short-circuit before
`image::load_from_memory`). -/
structure CacheResult where
  result : Option String
  fs : CacheFs
  encoded : Bool
deriving DecidableEq

/-- `cache_cover_jpg`: hash the bytes (`hash` abstracts SHA-256 hex),
resolve the covers directory, short-circuit to the existing file when the
hash-named path already exists, otherwise decode/resize/encode into a new
file.  `File::create` puts the file on disk even when the subsequent
encode fails; every failure returns `none` instead of an error. -/
def cache_cover_jpg (hash : List ℕ → String) (env : CacheEnv)
    (fs : CacheFs) (picture_bytes : List ℕ) : CacheResult :=
  let h := hash picture_bytes
  match env.app_data_dir with
  | none => ⟨none, fs, false⟩
  | some dataDir =>
    if ¬ env.createDirOk then ⟨none, fs, false⟩
    else
      let covers_dir := dataDir ++ "/covers"
      let cover_path := covers_dir ++ "/" ++ h ++ ".jpg"
      if cover_path ∈ fs.files then ⟨some cover_path, fs, false⟩
      else if ¬ env.loadOk picture_bytes then ⟨none, fs, true⟩
      else if ¬ env.createFileOk then ⟨none, fs, true⟩
      else
        let fsCreated : CacheFs := ⟨cover_path :: fs.files⟩
        if ¬ env.encodeOk then ⟨none, fsCreated, true⟩
        else ⟨some cover_path, fsCreated, true⟩

/-! ## Sidecar text (`read_lyrics`) -/

/-- What reading a path yields, per the documented contract of
`std::fs::read_to_string`: the file may be absent, hold valid UTF-8 text,
hold bytes that are not valid UTF-8, or fail to read for another
I/O reason. -/
inductive ReadOutcome where
  | utf8 (content : String)
  | invalidUtf8
  | ioFailure
deriving DecidableEq

/-- `std::fs::read_to_string`: succeeds exactly on a readable file whose
contents are valid UTF-8; a present file can still fail the read. -/
def read_to_string (fsys : String → Option ReadOutcome) (path : String) :
    Except String String :=
  match fsys path with
  | none => .error "No such file or directory"
  | some (.utf8 content) => .ok content
  | some .invalidUtf8 => .error "stream did not contain valid UTF-8"
  | some .ioFailure => .error "I O failure"

/-- `read_lyrics`: `read_to_string` with every error mapped into a
`Lyrics read error` message. -/
def read_lyrics (fsys : String → Option ReadOutcome) (file_path : String) :
    Except String String :=
  match read_to_string fsys file_path with
  | .ok content => .ok content
  | .error e => .error ("Lyrics read error: " ++ e)

/-! ## Characterizations and concrete fixtures -/

/-- The tag block `scan_music_file` reads from:
`tagged_file.primary_tag().or_else(|| tagged_file.first_tag())`. -/
def chosenTag (tf : TaggedFile) : Option Tag :=
  match tf.primary_tag with
  | some t => some t
  | none => tf.first_tag

/-- An environment in which every external call succeeds. -/
def envAllOk : Env :=
  ⟨true, fun _ => true, fun _ => true, true⟩

/-- An environment in which only `Sink::try_new` fails. -/
def envSinkFail : Env :=
  ⟨true, fun _ => true, fun _ => true, false⟩

/-- An environment in which the mutex acquisition fails. -/
def envLockFail : Env :=
  ⟨false, fun _ => true, fun _ => true, true⟩

/-- A sink currently playing the queued track `a.mp3`. -/
def playingSink : Sink :=
  ⟨5, 1, false, false, [⟨"a.mp3", 0⟩]⟩

/-- A session playing `a.mp3` at full volume. -/
def stPlaying : AudioState :=
  ⟨playingSink, some "a.mp3", 1, 6⟩

/-- A session playing `a.mp3` at stored volume `1/2`. -/
def stHalf : AudioState :=
  ⟨playingSink, some "a.mp3", 1/2, 6⟩

/-- A file system with one sidecar file whose bytes are not valid UTF-8. -/
def fsBadUtf8 : String → Option ReadOutcome :=
  fun p => if p = "lyrics.lrc" then some .invalidUtf8 else none

/-- A file system with one readable UTF-8 sidecar file. -/
def fsGoodUtf8 : String → Option ReadOutcome :=
  fun p => if p = "lyrics.lrc" then some (.utf8 "la la la") else none

/-- A sample tag block with full fields and one embedded picture. -/
def sampleTag : Tag :=
  ⟨some "Title", some "Artist", some "Album", [[1, 2]]⟩

/-- A probed file whose primary tag is `sampleTag`. -/
def sampleTagged : TaggedFile :=
  ⟨⟨200⟩, some sampleTag, [sampleTag]⟩

/-- A scan environment where probing `song.flac` yields `sampleTagged`. -/
def envScan : ScanEnv :=
  ⟨fun _ => true, fun _ => true, fun _ => true, fun _ => sampleTagged⟩

/-- A cover cache behaviour for the scan witness. -/
def cacheFn : List ℕ → Option String :=
  fun b => if b = [1, 2] then some "cover.jpg" else none

/-- A stand-in content hash (the embedding never needs SHA-256; all claims
only use that equal bytes hash equally). -/
def hashLen : List ℕ → String :=
  fun b => toString b.length

/-- A cache environment in which every step succeeds. -/
def envCacheOk : CacheEnv :=
  ⟨some "/data", true, fun _ => true, true, true⟩

/-! ## Claim theorems -/

/-- Claim C5: with no current track, `seek_to` fails with exactly the
`No track loaded` error, leaves the whole session state unchanged, and
emits no event. -/
theorem seekTo_no_track (env : Env) (st : AudioState) (s : ℚ)
    (hlock : env.lockOk = true) (hcur : st.current_file = none) :
    step env st (.seekTo s) = ⟨st, none, [], some "No track loaded"⟩ := by
  simp [step, seek_to, hlock, hcur]

/-- Witness for C5 at the initial state and position 5. -/
theorem seekTo_no_track_witness :
    step envAllOk initState (.seekTo 5) =
      ⟨initState, none, [], some "No track loaded"⟩ :=
  seekTo_no_track envAllOk initState 5 rfl rfl

/-- Claim C4: with a current track, a successful `seek_to` installs a
freshly created sink at the stored volume whose only queued source decodes
the current track from the start with the first `max(s, 0)` seconds
skipped, increments the allocation counter, stops and discards the old
sink, leaves `current_file` (and the stored volume) untouched, and emits
`seeking` with position `max(s, 0)` and the stored volume. -/
theorem seekTo_success (env : Env) (st : AudioState) (p : String) (s : ℚ)
    (hcur : st.current_file = some p) (hlock : env.lockOk = true)
    (hopen : env.openOk p = true) (hdec : env.decodeOk p = true)
    (hsink : env.sinkOk = true) :
    step env st (.seekTo s) =
      ⟨{ st with
          sink := ⟨st.nextId, st.volume, false, false, [⟨p, max s 0⟩]⟩
          nextId := st.nextId + 1 },
        some ⟨"seeking", some p, some (max s 0), some st.volume⟩,
        [st.sink.stopSink], none⟩ := by
  simp [step, seek_to, hcur, hlock, hopen, hdec, hsink, Sink.fresh,
    Sink.setVolume, Sink.append]

/-- Witness for C4: seeking to 30 seconds in a session playing `a.mp3`. -/
theorem seekTo_success_witness :
    step envAllOk stPlaying (.seekTo 30) =
      ⟨{ stPlaying with
          sink := ⟨stPlaying.nextId, stPlaying.volume, false, false,
            [⟨"a.mp3", max 30 0⟩]⟩
          nextId := stPlaying.nextId + 1 },
        some ⟨"seeking", some "a.mp3", some (max 30 0), some stPlaying.volume⟩,
        [stPlaying.sink.stopSink], none⟩ :=
  seekTo_success envAllOk stPlaying "a.mp3" 30 rfl rfl rfl rfl rfl

/-- One step preserves the volume bounds: only `set_volume` writes the
stored volume, and it writes a clamped value. -/
theorem step_volume_bounds (env : Env) (st : AudioState) (op : Op)
    (h0 : 0 ≤ st.volume) (h1 : st.volume ≤ 1) :
    0 ≤ (step env st op).state.volume ∧ (step env st op).state.volume ≤ 1 := by
  cases op with
  | load p =>
    simp only [step, play_song]
    split_ifs <;> simp [h0, h1]
  | pause =>
    simp only [step, pause_song]
    split_ifs <;> simp [h0, h1]
  | resume =>
    simp only [step, resume_song]
    split_ifs <;> simp [h0, h1]
  | stop =>
    simp only [step, stop_song]
    split_ifs <;> simp [h0, h1]
  | setVolume v =>
    simp only [step, set_volume]
    split_ifs <;>
      simp [volClamp, h0, h1, le_min_iff, le_max_iff, min_le_iff, max_le_iff]
  | seekTo s =>
    rcases hc : st.current_file with _ | p <;>
      simp only [step, seek_to, hc] <;> split_ifs <;> simp [h0, h1]

/-- Claim C3: starting from the initial state (volume `1.0`), after any
sequence of session operations under any environments and inputs the
stored volume lies in `[0, 1]`. -/
theorem volume_invariant (calls : List (Env × Op)) :
    0 ≤ (runOps initState calls).volume ∧ (runOps initState calls).volume ≤ 1 := by
  suffices general : ∀ (calls : List (Env × Op)) (st : AudioState),
      0 ≤ st.volume → st.volume ≤ 1 →
      0 ≤ (runOps st calls).volume ∧ (runOps st calls).volume ≤ 1 by
    exact general calls initState (by norm_num [initState]) (by norm_num [initState])
  intro calls
  induction calls with
  | nil =>
    intro st h0 h1
    exact ⟨h0, h1⟩
  | cons c rest ih =>
    intro st h0 h1
    obtain ⟨env, op⟩ := c
    have hstep := step_volume_bounds env st op h0 h1
    simpa [runOps] using ih _ hstep.1 hstep.2

/-- Claim C10: whenever a session operation emits an event, the payload's
volume field is present and equals the stored volume of the resulting
session state; moreover every successful operation does emit an event. -/
theorem event_volume_field (env : Env) (st : AudioState) (op : Op) :
    (∀ pl : AudioEventPayload, (step env st op).event = some pl →
      pl.volume = some (step env st op).state.volume) ∧
    ((step env st op).error = none → ((step env st op).event).isSome = true) := by
  cases op with
  | load p =>
    simp only [step, play_song]
    split_ifs <;> simp
  | pause =>
    simp only [step, pause_song]
    split_ifs <;> simp_all [Sink.pauseSink]
  | resume =>
    simp only [step, resume_song]
    split_ifs <;> simp_all [Sink.playSink]
  | stop =>
    simp only [step, stop_song]
    split_ifs <;> simp
  | setVolume v =>
    simp only [step, set_volume]
    split_ifs <;> simp
  | seekTo s =>
    rcases hc : st.current_file with _ | p <;>
      simp only [step, seek_to, hc] <;> split_ifs <;> simp

/-- Witness for C10: the `paused` event of a successful pause carries the
stored volume. -/
theorem event_volume_field_witness :
    AudioEventPayload.volume ⟨"paused", some "a.mp3", none, some 1⟩ =
      some (step envAllOk stPlaying .pause).state.volume :=
  (event_volume_field envAllOk stPlaying .pause).1
    ⟨"paused", some "a.mp3", none, some 1⟩ rfl

/-- Counterexample to claim C1 as stated: when `Sink::try_new` fails
inside `stop_song`, the operation returns an error yet the session record
has changed — the previously playing sink is now stopped (its queue
emptied) with no replacement installed, while `current_file` still points
at the old track. -/
theorem stop_failure_mutates_state :
    ((step envSinkFail stPlaying .stop).error).isSome = true ∧
    (step envSinkFail stPlaying .stop).state ≠ stPlaying ∧
    (step envSinkFail stPlaying .stop).state.sink.stopped = true ∧
    (step envSinkFail stPlaying .stop).state.current_file = some "a.mp3" := by
  refine ⟨rfl, ?_, rfl, rfl⟩
  decide

/-- Claim C1 amended: a failing `play_song`, `pause_song`, `resume_song`,
`set_volume` or `seek_to` leaves the session record exactly as before, and
any failing operation emits no event and preserves `current_file`, the
stored volume and the allocation counter; but a failing `stop_song` may
leave the previous sink already stopped with no replacement installed
(the only possible mutation on error). -/
theorem error_leaves_state (env : Env) (st : AudioState) (op : Op)
    (herr : ((step env st op).error).isSome = true) :
    (step env st op).event = none ∧
    (step env st op).state.current_file = st.current_file ∧
    (step env st op).state.volume = st.volume ∧
    (step env st op).state.nextId = st.nextId ∧
    (op ≠ Op.stop → (step env st op).state = st) ∧
    ((step env st op).state = st ∨
      (op = Op.stop ∧
        (step env st op).state = { st with sink := st.sink.stopSink })) := by
  cases op with
  | load p =>
    simp only [step, play_song] at herr ⊢
    split_ifs at herr ⊢ <;> simp_all
  | pause =>
    simp only [step, pause_song] at herr ⊢
    split_ifs at herr ⊢ <;> simp_all
  | resume =>
    simp only [step, resume_song] at herr ⊢
    split_ifs at herr ⊢ <;> simp_all
  | stop =>
    simp only [step, stop_song] at herr ⊢
    split_ifs at herr ⊢ <;> simp_all
  | setVolume v =>
    simp only [step, set_volume] at herr ⊢
    split_ifs at herr ⊢ <;> simp_all
  | seekTo s =>
    rcases hc : st.current_file with _ | p <;>
      simp only [step, seek_to, hc] at herr ⊢ <;>
      split_ifs at herr ⊢ <;> simp_all

/-- Witness for the amended C1: a `play_song` whose decoder fails leaves
the playing session untouched. -/
theorem error_leaves_state_witness :
    (step ⟨true, fun _ => true, fun _ => false, true⟩ stPlaying
        (.load "b.mp3")).event = none ∧
    (step ⟨true, fun _ => true, fun _ => false, true⟩ stPlaying
        (.load "b.mp3")).state.current_file = stPlaying.current_file ∧
    (step ⟨true, fun _ => true, fun _ => false, true⟩ stPlaying
        (.load "b.mp3")).state.volume = stPlaying.volume ∧
    (step ⟨true, fun _ => true, fun _ => false, true⟩ stPlaying
        (.load "b.mp3")).state.nextId = stPlaying.nextId ∧
    (Op.load "b.mp3" ≠ Op.stop →
      (step ⟨true, fun _ => true, fun _ => false, true⟩ stPlaying
        (.load "b.mp3")).state = stPlaying) ∧
    ((step ⟨true, fun _ => true, fun _ => false, true⟩ stPlaying
        (.load "b.mp3")).state = stPlaying ∨
      (Op.load "b.mp3" = Op.stop ∧
        (step ⟨true, fun _ => true, fun _ => false, true⟩ stPlaying
          (.load "b.mp3")).state =
            { stPlaying with sink := stPlaying.sink.stopSink })) :=
  error_leaves_state ⟨true, fun _ => true, fun _ => false, true⟩ stPlaying
    (.load "b.mp3") rfl

/-- Counterexample to claim C2 as stated: with stored volume `1/2`, a
successful `stop_song` installs a sink whose gain is rodio's default `1`,
not the stored volume — `stop_song` never calls `set_volume` on the sink
it creates. -/
theorem stop_sink_keeps_default_gain :
    (step envAllOk stHalf .stop).error = none ∧
    (step envAllOk stHalf .stop).state.volume = 1/2 ∧
    (step envAllOk stHalf .stop).state.sink.gain = 1 ∧
    (step envAllOk stHalf .stop).state.sink.gain ≠
      (step envAllOk stHalf .stop).state.volume := by
  refine ⟨rfl, rfl, rfl, ?_⟩
  show (1 : ℚ) ≠ 1/2
  norm_num

/-- Claim C2 amended: `set_volume` stores `clamp(level, 0, 1)` exactly and
applies it to the active sink in place, and the sinks created by
`play_song` and `seek_to` carry the stored volume as their gain; but the
sink created by a successful `stop_song` is a fresh sink at rodio's
default gain `1`, to which the stored volume is not applied. -/
theorem volume_storage_and_application (env : Env) (st : AudioState) :
    (∀ v : ℚ, env.lockOk = true →
      (step env st (.setVolume v)).state.volume = volClamp v ∧
      (step env st (.setVolume v)).state.sink = st.sink.setVolume (volClamp v) ∧
      (step env st (.setVolume v)).event =
        some ⟨"volume", st.current_file, none, some (volClamp v)⟩) ∧
    (∀ p : String, (step env st (.load p)).error = none →
      (step env st (.load p)).state.sink.gain = st.volume) ∧
    (∀ s : ℚ, (step env st (.seekTo s)).error = none →
      (step env st (.seekTo s)).state.sink.gain = st.volume) ∧
    ((step env st .stop).error = none →
      (step env st .stop).state.sink = Sink.fresh st.nextId ∧
      (step env st .stop).state.sink.gain = 1) := by
  refine ⟨?_, ?_, ?_, ?_⟩
  · intro v hlock
    simp [step, set_volume, hlock]
  · intro p herr
    simp only [step, play_song] at herr ⊢
    split_ifs at herr ⊢ <;>
      simp_all [Sink.fresh, Sink.setVolume, Sink.append]
  · intro s herr
    rcases hc : st.current_file with _ | p <;>
      simp only [step, seek_to, hc] at herr ⊢ <;>
      split_ifs at herr ⊢ <;>
      simp_all [Sink.fresh, Sink.setVolume, Sink.append]
  · intro herr
    simp only [step, stop_song] at herr ⊢
    split_ifs at herr ⊢ <;> simp_all [Sink.fresh]

/-- Witness for the amended C2: setting the volume to `2` on the playing
session stores and applies the clamped value `1`. -/
theorem volume_storage_witness :
    (step envAllOk stHalf (.setVolume 2)).state.volume = volClamp 2 ∧
    (step envAllOk stHalf (.setVolume 2)).state.sink =
      stHalf.sink.setVolume (volClamp 2) ∧
    (step envAllOk stHalf (.setVolume 2)).event =
      some ⟨"volume", stHalf.current_file, none, some (volClamp 2)⟩ :=
  (volume_storage_and_application envAllOk stHalf).1 2 rfl

/-- Claim C7: when open, probe and tag read succeed, `scan_music_file`
returns the duration taken from the stream properties (tags carry no
duration in the embedding) and title/artist/album/cover read from the
primary tag block, falling back to the first available tag block; with no
tag block at all it still succeeds, with title, artist, album and cover
path absent and duration and file path returned. -/
theorem scan_reads_properties_and_chosen_tag (env : ScanEnv)
    (cache : List ℕ → Option String) (p : String)
    (hopen : env.openOk p = true) (hprobe : env.probeOk p = true)
    (hread : env.readOk p = true) :
    scan_music_file env cache p =
      .ok ⟨(chosenTag (env.content p)).bind Tag.title,
        (chosenTag (env.content p)).bind Tag.artist,
        (chosenTag (env.content p)).bind Tag.album,
        (env.content p).properties.durationSecs, p,
        (chosenTag (env.content p)).bind
          fun t => Option.bind t.pictures.head? cache⟩ ∧
    (chosenTag (env.content p) = none →
      scan_music_file env cache p =
        .ok ⟨none, none, none, (env.content p).properties.durationSecs, p, none⟩) := by
  constructor
  · rcases hprim : (env.content p).primary_tag with _ | tag
    · rcases hfirst : (env.content p).first_tag with _ | tag
      · simp [scan_music_file, chosenTag, hopen, hprobe, hread, hprim, hfirst]
      · rcases hpic : tag.pictures.head? with _ | pic <;>
          simp [scan_music_file, chosenTag, hopen, hprobe, hread, hprim, hfirst, hpic]
    · rcases hpic : tag.pictures.head? with _ | pic <;>
        simp [scan_music_file, chosenTag, hopen, hprobe, hread, hprim, hpic]
  · intro hnone
    rcases hprim : (env.content p).primary_tag with _ | tag
    · rcases hfirst : (env.content p).first_tag with _ | tag
      · simp [scan_music_file, hopen, hprobe, hread, hprim, hfirst]
      · rw [chosenTag, hprim, hfirst] at hnone
        exact absurd hnone (by simp)
    · rw [chosenTag, hprim] at hnone
      exact absurd hnone (by simp)

/-- Witness for C7: scanning `song.flac` in the sample environment returns
the sample tag's fields, the stream duration 200, and the cached cover. -/
theorem scan_reads_properties_witness :
    scan_music_file envScan cacheFn "song.flac" =
      .ok ⟨some "Title", some "Artist", some "Album", 200, "song.flac",
        some "cover.jpg"⟩ :=
  ((scan_reads_properties_and_chosen_tag envScan cacheFn "song.flac"
    rfl rfl rfl).1).trans (by rfl)

/-- Counterexample to claim C9 as stated: `read_lyrics` on a file that is
present but whose bytes are not valid UTF-8 fails — file-not-found is not
its only failure kind (`std::fs::read_to_string` also fails on invalid
UTF-8 and other I/O errors, and the code forwards every such error). -/
theorem read_lyrics_fails_on_present_file :
    (fsBadUtf8 "lyrics.lrc").isSome = true ∧
    read_lyrics fsBadUtf8 "lyrics.lrc" =
      .error "Lyrics read error: stream did not contain valid UTF-8" :=
  ⟨rfl, rfl⟩

/-- Claim C9 amended: `read_lyrics` returns the file's raw text content
exactly when the underlying read succeeds, and it fails whenever the read
fails — whether the file is missing, its contents are not valid UTF-8, or
another I/O error occurs — so FileNotFound is not its only failure kind. -/
theorem read_lyrics_spec (fsys : String → Option ReadOutcome) (p : String) :
    (∀ s, fsys p = some (.utf8 s) → read_lyrics fsys p = .ok s) ∧
    (fsys p = none →
      read_lyrics fsys p = .error "Lyrics read error: No such file or directory") ∧
    (fsys p = some .invalidUtf8 →
      read_lyrics fsys p =
        .error "Lyrics read error: stream did not contain valid UTF-8") ∧
    (fsys p = some .ioFailure → ∃ e, read_lyrics fsys p = .error e) := by
  refine ⟨?_, ?_, ?_, ?_⟩
  · intro s h
    simp [read_lyrics, read_to_string, h]
  · intro h
    simp [read_lyrics, read_to_string, h]
  · intro h
    simp [read_lyrics, read_to_string, h]
  · intro h
    exact ⟨"Lyrics read error: I O failure",
      by simp [read_lyrics, read_to_string, h]⟩

/-- Witness for the amended C9: reading an existing valid-UTF-8 sidecar
file yields its content. -/
theorem read_lyrics_spec_witness :
    read_lyrics fsGoodUtf8 "lyrics.lrc" = .ok "la la la" :=
  (read_lyrics_spec fsGoodUtf8 "lyrics.lrc").1 "la la la" rfl

/-- Claim C8: when the data directory resolves and every step succeeds,
`cache_cover_jpg` returns the hash-named path, and the second call with
the identical bytes returns the same path while leaving the file system
unchanged and performing none of the decode/resize/encode work (it
short-circuits on the existing hash-named file); moreover, a missing data
directory, an uncreatable cache directory, a corrupt image or a failing
encode all yield an absent path rather than an error. -/
theorem cache_cover_idempotent (hash : List ℕ → String) (env : CacheEnv)
    (fs : CacheFs) (b : List ℕ) (d : String)
    (hdir : env.app_data_dir = some d) (hcd : env.createDirOk = true)
    (hload : env.loadOk b = true) (hcf : env.createFileOk = true)
    (henc : env.encodeOk = true) :
    ((cache_cover_jpg hash env fs b).result =
      some (d ++ "/covers" ++ "/" ++ hash b ++ ".jpg")) ∧
    (cache_cover_jpg hash env (cache_cover_jpg hash env fs b).fs b =
      ⟨(cache_cover_jpg hash env fs b).result,
        (cache_cover_jpg hash env fs b).fs, false⟩) ∧
    (∀ (env2 : CacheEnv) (fs2 : CacheFs) (b2 : List ℕ),
      env2.app_data_dir = none →
      (cache_cover_jpg hash env2 fs2 b2).result = none) ∧
    (∀ (env2 : CacheEnv) (fs2 : CacheFs) (b2 : List ℕ),
      env2.createDirOk = false →
      (cache_cover_jpg hash env2 fs2 b2).result = none) ∧
    (∀ (env2 : CacheEnv) (fs2 : CacheFs) (b2 : List ℕ) (d2 : String),
      env2.app_data_dir = some d2 →
      (d2 ++ "/covers" ++ "/" ++ hash b2 ++ ".jpg") ∉ fs2.files →
      env2.loadOk b2 = false →
      (cache_cover_jpg hash env2 fs2 b2).result = none) ∧
    (∀ (env2 : CacheEnv) (fs2 : CacheFs) (b2 : List ℕ) (d2 : String),
      env2.app_data_dir = some d2 →
      (d2 ++ "/covers" ++ "/" ++ hash b2 ++ ".jpg") ∉ fs2.files →
      env2.encodeOk = false →
      (cache_cover_jpg hash env2 fs2 b2).result = none) := by
  refine ⟨?_, ?_, ?_, ?_, ?_, ?_⟩
  · by_cases hmem : (d ++ "/covers" ++ "/" ++ hash b ++ ".jpg") ∈ fs.files <;>
      simp [cache_cover_jpg, hdir, hcd, hload, hcf, henc, hmem]
  · by_cases hmem : (d ++ "/covers" ++ "/" ++ hash b ++ ".jpg") ∈ fs.files <;>
      simp [cache_cover_jpg, hdir, hcd, hload, hcf, henc, hmem]
  · intro env2 fs2 b2 h2
    simp [cache_cover_jpg, h2]
  · intro env2 fs2 b2 h2
    rcases hdir2 : env2.app_data_dir with _ | d2 <;>
      simp [cache_cover_jpg, hdir2, h2]
  · intro env2 fs2 b2 d2 hdir2 hmem2 hload2
    by_cases hcd2 : env2.createDirOk <;>
      simp [cache_cover_jpg, hdir2, hmem2, hload2, hcd2]
  · intro env2 fs2 b2 d2 hdir2 hmem2 henc2
    by_cases hcd2 : env2.createDirOk <;>
      by_cases hload2 : env2.loadOk b2 <;>
      by_cases hcf2 : env2.createFileOk <;>
      simp [cache_cover_jpg, hdir2, hmem2, henc2, hcd2, hload2, hcf2]

/-- Witness for C8: caching the bytes `[1, 2, 3]` twice in an empty cache
returns `/data/covers/3.jpg` both times, the second call doing no encode
work. -/
theorem cache_cover_idempotent_witness :
    ((cache_cover_jpg hashLen envCacheOk ⟨[]⟩ [1, 2, 3]).result =
      some ("/data" ++ "/covers" ++ "/" ++ hashLen [1, 2, 3] ++ ".jpg")) ∧
    (cache_cover_jpg hashLen envCacheOk
        (cache_cover_jpg hashLen envCacheOk ⟨[]⟩ [1, 2, 3]).fs [1, 2, 3] =
      ⟨(cache_cover_jpg hashLen envCacheOk ⟨[]⟩ [1, 2, 3]).result,
        (cache_cover_jpg hashLen envCacheOk ⟨[]⟩ [1, 2, 3]).fs, false⟩) :=
  ⟨(cache_cover_idempotent hashLen envCacheOk ⟨[]⟩ [1, 2, 3] "/data"
      rfl rfl rfl rfl rfl).1,
    (cache_cover_idempotent hashLen envCacheOk ⟨[]⟩ [1, 2, 3] "/data"
      rfl rfl rfl rfl rfl).2.1⟩
